import Mathlib

/-!
# Verification of `load_data.py` (HW8PipelineGit)

A shallow embedding of the single-script ETL pipeline `src/load_data.py`:

* configuration resolution from environment variables (lines 9-12),
* the ODBC connection string and SQLAlchemy engine options (lines 20-31),
* the `DDL` create-if-missing batch (lines 34-62),
* the `WIDEN` schema-reconciliation batch (lines 66-85),
* CSV column-name normalization and lenient date coercion (lines 89-99),
* the truncate-then-bulk-insert load (lines 101-108), and
* the read-only smoke queries (lines 110-124).

SQL Server semantics used by the embedding (documented per definition):
`COL_LENGTH` returns the column's storage size in **bytes** (`2*n` for
`NVARCHAR(n)`, `-1` for `NVARCHAR(MAX)`), while
`INFORMATION_SCHEMA.COLUMNS.character_maximum_length` returns the size in
**characters** (`-1` for `MAX`, `NULL` for non-character types).
`DECIMAL(18,4)` values are modeled as integers in units of `10^-4`; the
scale never matters for the properties proved here.
-/

/-- A declared SQL Server column type, restricted to the types that appear
in the two `CREATE TABLE` statements of `load_data.py` (lines 34-60). -/
inductive SqlType
  | int
  | decimal (p s : Nat)
  | datetime2
  /-- `NVARCHAR(w)` with `w` a character count. -/
  | nvarchar (w : Nat)
  /-- `NVARCHAR(MAX)`. -/
  | nvarcharMax
  deriving DecidableEq, Repr

/-- `COL_LENGTH` (T-SQL): storage size of the column in bytes.
`NVARCHAR(w)` stores 2 bytes per character; `NVARCHAR(MAX)` reports `-1`;
`INT` is 4 bytes, `DECIMAL(18,4)` is 9 bytes, `DATETIME2` (default
precision 7) is 8 bytes.  In the model every column named by the `WIDEN`
batch exists, so the result is never SQL `NULL`. -/
def COL_LENGTH : SqlType → Int
  | .int => 4
  | .decimal _ _ => 9
  | .datetime2 => 8
  | .nvarchar w => 2 * w
  | .nvarcharMax => -1

/-- `INFORMATION_SCHEMA.COLUMNS.character_maximum_length`: the maximum
length in characters for character-typed columns, `-1` for `MAX` types,
and SQL `NULL` (here `none`) for non-character types. -/
def character_maximum_length : SqlType → Option Int
  | .nvarchar w => some (w : Int)
  | .nvarcharMax => some (-1)
  | _ => none

/-- SQL three-valued `<` against a possibly-`NULL` left operand: a
comparison with `NULL` is UNKNOWN, which an `IF` treats as false. -/
def sqlLtNull (a : Option Int) (b : Int) : Bool :=
  match a with
  | some v => decide (v < b)
  | none => false

/-- Declared column types of `dbo.BrandDetail` (DDL lines 50-58). -/
structure BrandDetailSchema where
  BRAND_ID : SqlType
  BRAND_NAME : SqlType
  BRAND_TYPE : SqlType
  BRAND_URL_ADDR : SqlType
  INDUSTRY_NAME : SqlType
  SUBINDUSTRY_ID : SqlType
  SUBINDUSTRY_NAME : SqlType
  deriving DecidableEq, Repr

/-- Declared column types of `dbo.ConsumerSpendDaily` (DDL lines 37-45). -/
structure ConsumerSpendDailySchema where
  BRAND_ID : SqlType
  BRAND_NAME : SqlType
  SPEND_AMOUNT : SqlType
  STATE_ABBR : SqlType
  TRANS_COUNT : SqlType
  TRANS_DATE : SqlType
  VERSION : SqlType
  deriving DecidableEq, Repr

/-- The declared types of both destination tables. -/
structure SchemaState where
  brandDetail : BrandDetailSchema
  consumerSpendDaily : ConsumerSpendDailySchema
  deriving DecidableEq, Repr

/-- `dbo.BrandDetail` as created by the `DDL` batch (lines 50-58). -/
def ddlBrandDetail : BrandDetailSchema :=
  { BRAND_ID := .int
    BRAND_NAME := .nvarchar 400
    BRAND_TYPE := .nvarchar 100
    BRAND_URL_ADDR := .nvarcharMax
    INDUSTRY_NAME := .nvarchar 200
    SUBINDUSTRY_ID := .int
    SUBINDUSTRY_NAME := .nvarchar 200 }

/-- `dbo.ConsumerSpendDaily` as created by the `DDL` batch (lines 37-45). -/
def ddlConsumerSpendDaily : ConsumerSpendDailySchema :=
  { BRAND_ID := .int
    BRAND_NAME := .nvarchar 400
    SPEND_AMOUNT := .decimal 18 4
    STATE_ABBR := .nvarchar 50
    TRANS_COUNT := .decimal 18 4
    TRANS_DATE := .datetime2
    VERSION := .datetime2 }

/-- The schema state produced by the `DDL` batch on an empty database. -/
def ddlSchemaState : SchemaState :=
  { brandDetail := ddlBrandDetail, consumerSpendDaily := ddlConsumerSpendDaily }

/-- The `DDL` batch (lines 34-62): each table is created with its DDL
schema if absent, and left untouched if present (`IF NOT EXISTS ... CREATE
TABLE`). `none` models an absent table. -/
def runDDL (bd : Option BrandDetailSchema) (csd : Option ConsumerSpendDailySchema) :
    SchemaState :=
  { brandDetail := bd.getD ddlBrandDetail
    consumerSpendDaily := csd.getD ddlConsumerSpendDaily }

/-- A string column of one of the two destination tables, as named in the
`WIDEN` batch's guards and `ALTER` statements (lines 66-85). -/
inductive TableColumn
  | brandName
  | brandType
  | brandUrlAddr
  | industryName
  | subindustryName
  | dailyBrandName
  | dailyStateAbbr
  deriving DecidableEq, Repr

/-- The declared type a schema state gives to a `WIDEN`-batch column. -/
def columnType (s : SchemaState) : TableColumn → SqlType
  | .brandName => s.brandDetail.BRAND_NAME
  | .brandType => s.brandDetail.BRAND_TYPE
  | .brandUrlAddr => s.brandDetail.BRAND_URL_ADDR
  | .industryName => s.brandDetail.INDUSTRY_NAME
  | .subindustryName => s.brandDetail.SUBINDUSTRY_NAME
  | .dailyBrandName => s.consumerSpendDaily.BRAND_NAME
  | .dailyStateAbbr => s.consumerSpendDaily.STATE_ABBR

/-- `ALTER TABLE ... ALTER COLUMN <col> <ty> NULL`: set the column's
declared type. -/
def setColumnType (s : SchemaState) : TableColumn → SqlType → SchemaState
  | .brandName, ty =>
    { s with brandDetail := { s.brandDetail with BRAND_NAME := ty } }
  | .brandType, ty =>
    { s with brandDetail := { s.brandDetail with BRAND_TYPE := ty } }
  | .brandUrlAddr, ty =>
    { s with brandDetail := { s.brandDetail with BRAND_URL_ADDR := ty } }
  | .industryName, ty =>
    { s with brandDetail := { s.brandDetail with INDUSTRY_NAME := ty } }
  | .subindustryName, ty =>
    { s with brandDetail := { s.brandDetail with SUBINDUSTRY_NAME := ty } }
  | .dailyBrandName, ty =>
    { s with consumerSpendDaily := { s.consumerSpendDaily with BRAND_NAME := ty } }
  | .dailyStateAbbr, ty =>
    { s with consumerSpendDaily := { s.consumerSpendDaily with STATE_ABBR := ty } }

/-- The two guard shapes appearing in the `WIDEN` batch:
`COL_LENGTH('dbo.T','c') < k`, and the `BRAND_URL_ADDR` guard
`COL_LENGTH('dbo.T','c') IS NOT NULL AND (SELECT MAX(
character_maximum_length) ...) < k` (lines 69-71). -/
inductive TSqlGuard
  | colLengthLt (col : TableColumn) (k : Int)
  | colExistsAndCharMaxLt (col : TableColumn) (k : Int)
  deriving DecidableEq, Repr

/-- Guard evaluation.  In the model every guarded column exists, so
`COL_LENGTH(...) IS NOT NULL` holds and the second guard form reduces to
its `character_maximum_length` comparison (with SQL three-valued `<`:
comparing `NULL` is UNKNOWN, which `IF` treats as false). -/
def evalGuard (s : SchemaState) : TSqlGuard → Bool
  | .colLengthLt c k => decide (COL_LENGTH (columnType s c) < k)
  | .colExistsAndCharMaxLt c k => sqlLtNull (character_maximum_length (columnType s c)) k

/-- A statement of the `WIDEN` batch, as written in the source.  A
`BEGIN ... END` statement block is carried as the list of the statements
it contains; T-SQL comments are not statements and do not appear. -/
inductive TSqlStmt
  /-- `ALTER TABLE ... ALTER COLUMN <col> <ty> NULL;` -/
  | alterColumn (col : TableColumn) (ty : SqlType)
  /-- `IF <guard> <stmt>` -/
  | ifThen (g : TSqlGuard) (s : TSqlStmt)
  /-- `IF <guard> BEGIN <stmts> END ELSE <stmt>` -/
  | ifBlockElse (g : TSqlGuard) (thenBlock : List TSqlStmt) (elseStmt : TSqlStmt)

mutual

/-- T-SQL grammar check for one statement: a `BEGIN ... END` statement
block must contain at least one statement (`BEGIN { sql_statement |
statement_block } END`); an empty block — e.g. one holding only a
comment — is a compile error (Msg 102). -/
def stmtValid : TSqlStmt → Bool
  | .alterColumn _ _ => true
  | .ifThen _ s => stmtValid s
  | .ifBlockElse _ blk e => !blk.isEmpty && blockValid blk && stmtValid e

/-- Validity of every statement in a block. -/
def blockValid : List TSqlStmt → Bool
  | [] => true
  | s :: rest => stmtValid s && blockValid rest

end

mutual

/-- Effect of one (compiled) statement on the schema state. -/
def execStmt (s : SchemaState) : TSqlStmt → SchemaState
  | .alterColumn c ty => setColumnType s c ty
  | .ifThen g st => if evalGuard s g then execStmt s st else s
  | .ifBlockElse g blk e => if evalGuard s g then execBlock s blk else execStmt s e

/-- Effect of a (compiled) statement block, run in order. -/
def execBlock (s : SchemaState) : List TSqlStmt → SchemaState
  | [] => s
  | st :: rest => execBlock (execStmt s st) rest

end

/-- Lines 69-76 of the `WIDEN` batch: `IF COL_LENGTH('dbo.BrandDetail',
'BRAND_URL_ADDR') IS NOT NULL AND (SELECT MAX(character_maximum_length)
...) < -1 BEGIN ... END ELSE ALTER TABLE dbo.BrandDetail ALTER COLUMN
BRAND_URL_ADDR NVARCHAR(MAX) NULL;` — the `BEGIN ... END` block contains
only the comment `-- no-op (already MAX)` and hence no statement at
all. -/
def brandUrlWidenStmt : TSqlStmt :=
  .ifBlockElse (.colExistsAndCharMaxLt .brandUrlAddr (-1)) []
    (.alterColumn .brandUrlAddr .nvarcharMax)

/-- The `WIDEN` batch (lines 66-83), statement by statement in source
order. -/
def WIDEN : List TSqlStmt :=
  [ .ifThen (.colLengthLt .brandName 400) (.alterColumn .brandName (.nvarchar 400)),
    .ifThen (.colLengthLt .brandType 100) (.alterColumn .brandType (.nvarchar 100)),
    brandUrlWidenStmt,
    .ifThen (.colLengthLt .industryName 200) (.alterColumn .industryName (.nvarchar 200)),
    .ifThen (.colLengthLt .subindustryName 200) (.alterColumn .subindustryName (.nvarchar 200)),
    .ifThen (.colLengthLt .dailyBrandName 400) (.alterColumn .dailyBrandName (.nvarchar 400)),
    .ifThen (.colLengthLt .dailyStateAbbr 50) (.alterColumn .dailyStateAbbr (.nvarchar 50)) ]

/-- Whether SQL Server accepts the batch: it parses and compiles the batch
as a whole before executing any statement of it. -/
def batchCompiles (b : List TSqlStmt) : Bool := blockValid b

/-- The parse error an empty statement block raises (Msg 102). -/
def msg102 : String := "Incorrect syntax near END"

/-- `conn.exec_driver_sql(<batch>)` (line 85): if the batch fails to
compile, the driver raises and not one of its statements executes — the
schema is untouched; otherwise the statements run in order. -/
def execBatch (b : List TSqlStmt) (s : SchemaState) :
    SchemaState × Except String Unit :=
  if batchCompiles b then (execBlock s b, Except.ok ()) else (s, Except.error msg102)

/-- The character width a schema's column guarantees: `none` for
unbounded (`NVARCHAR(MAX)`) and for non-character types. -/
def nvarcharWidth : SqlType → Option Nat
  | .nvarchar w => some w
  | _ => none

/-- A pre-existing `dbo.BrandDetail` whose `BRAND_NAME` drifted to
`NVARCHAR(250)` — below the declared minimum width of 400 characters. -/
def narrowBrandNameState : SchemaState :=
  { ddlSchemaState with
    brandDetail := { ddlBrandDetail with BRAND_NAME := .nvarchar 250 } }

example : batchCompiles WIDEN = false := rfl

example :
    execBlock { ddlSchemaState with
        brandDetail := { ddlBrandDetail with BRAND_NAME := .nvarchar 100 } }
      [.ifThen (.colLengthLt .brandName 400) (.alterColumn .brandName (.nvarchar 400))]
      = ddlSchemaState := by decide

example : evalGuard narrowBrandNameState (.colLengthLt .brandName 400) = false := rfl

/-- C2: the claim says running the `WIDEN` batch on a below-minimum column
always leaves its width at least the minimum, never narrows, and repeats
as a no-op.  In fact the batch's `BEGIN ... END` block (lines 72-74)
contains only a comment; an empty statement block is invalid T-SQL, so
the whole batch fails to compile (Msg 102) and not one guard or `ALTER`
ever executes: `exec_driver_sql(WIDEN)` raises on every run and a
`BRAND_NAME` of `NVARCHAR(250)` is still 250 < 400 afterwards. -/
theorem widen_batch_never_widens :
    batchCompiles WIDEN = false
    ∧ execBatch WIDEN narrowBrandNameState
        = (narrowBrandNameState, Except.error msg102)
    ∧ nvarcharWidth (execBatch WIDEN narrowBrandNameState).1.brandDetail.BRAND_NAME
        = some 250
    ∧ 250 < 400 :=
  ⟨rfl, rfl, rfl, by decide⟩

/-- C3: `dbo.BrandDetail.BRAND_URL_ADDR` is declared `NVARCHAR(MAX)` by
the `DDL` batch, but the `WIDEN` batch never gets to treat the
already-unbounded column as satisfied: the very `BEGIN ... END` branch
meant to be the "no-op (already MAX)" case holds only that comment, which
is invalid T-SQL, so the batch fails to compile and the reconciler
performs no action at all — it raises Msg 102 instead of running the
widening logic the claim describes. -/
theorem widen_noop_block_syntax_error :
    ddlBrandDetail.BRAND_URL_ADDR = SqlType.nvarcharMax
    ∧ WIDEN[2]? = some brandUrlWidenStmt
    ∧ stmtValid brandUrlWidenStmt = false
    ∧ execBatch WIDEN ddlSchemaState = (ddlSchemaState, Except.error msg102) :=
  ⟨rfl, rfl, rfl, rfl⟩

/-- The four environment variable names read at lines 9-12, in source
order. -/
def requiredEnvVars : List String :=
  ["AZ_SQLSERVER", "AZ_DBNAME", "AZ_SQLUSER", "AZ_SQLPASSWORD"]

/-- The resolved configuration (lines 9-12): four strings, taken verbatim
from the environment. -/
structure Config where
  SERVER : String
  DATABASE : String
  UID : String
  PWD : String
  deriving DecidableEq, Repr

/-- Lines 9-12: `os.environ["AZ_SQLSERVER"]` etc.  Each subscript raises
`KeyError(name)` if the variable is absent; the four lookups run in
source order at import time, before the engine, DDL or load code.  The
error value is the name of the missing variable. -/
def loadConfig (env : String → Option String) : Except String Config :=
  match env "AZ_SQLSERVER" with
  | none => .error "AZ_SQLSERVER"
  | some server =>
    match env "AZ_DBNAME" with
    | none => .error "AZ_DBNAME"
    | some database =>
      match env "AZ_SQLUSER" with
      | none => .error "AZ_SQLUSER"
      | some uid =>
        match env "AZ_SQLPASSWORD" with
        | none => .error "AZ_SQLPASSWORD"
        | some pwd => .ok { SERVER := server, DATABASE := database, UID := uid, PWD := pwd }

/-- The ODBC connection string assembled at lines 20-27, with the same
literal fragments in the same order as the source. -/
def odbc (cfg : Config) : String :=
  "Driver=ODBC Driver 18 for SQL Server;"
    ++ ("Server=tcp:" ++ cfg.SERVER ++ ",1433;")
    ++ ("Database=" ++ cfg.DATABASE ++ ";")
    ++ ("Uid=" ++ cfg.UID ++ ";")
    ++ ("Pwd=" ++ cfg.PWD ++ ";")
    ++ "Encrypt=yes;TrustServerCertificate=no;Connection Timeout=30;"

/-- The SQLAlchemy engine of lines 28-31: the quoted ODBC connection
string plus the `fast_executemany=True` option, which makes `to_sql`
inserts batched (many rows per round trip) instead of row-by-row. -/
structure Engine where
  odbc_connect : String
  fast_executemany : Bool
  deriving DecidableEq, Repr

/-- `sa.create_engine(f"mssql+pyodbc:///?odbc_connect={quote_plus(odbc)}",
fast_executemany=True)` (lines 28-31). -/
def engine (cfg : Config) : Engine :=
  { odbc_connect := odbc cfg, fast_executemany := true }

example :
    odbc { SERVER := "s", DATABASE := "d", UID := "u", PWD := "p" }
      = "Driver=ODBC Driver 18 for SQL Server;Server=tcp:s,1433;Database=d;Uid=u;Pwd=p;Encrypt=yes;TrustServerCertificate=no;Connection Timeout=30;" := by
  rfl

/-- C7: for every configuration, the connection descriptor is exactly the
fixed-policy string — encryption on (`Encrypt=yes`), certificate
validation never bypassed (`TrustServerCertificate=no`), port `1433`
after the server host, a 30-unit connection timeout — and the engine is
configured for batched inserts (`fast_executemany` on). -/
theorem engine_fixed_transport_policy (cfg : Config) :
    (engine cfg).odbc_connect
      = "Driver=ODBC Driver 18 for SQL Server;"
          ++ ("Server=tcp:" ++ (cfg.SERVER ++ (",1433;"
          ++ ("Database=" ++ (cfg.DATABASE ++ (";"
          ++ ("Uid=" ++ (cfg.UID ++ (";"
          ++ ("Pwd=" ++ (cfg.PWD ++ (";"
          ++ "Encrypt=yes;TrustServerCertificate=no;Connection Timeout=30;"))))))))))))
    ∧ (engine cfg).fast_executemany = true := by
  refine ⟨?_, rfl⟩
  show odbc cfg = _
  unfold odbc
  simp only [String.append_assoc]

/-- C10: for every schema state, the declared types of the integer,
decimal and datetime columns — `BrandDetail.BRAND_ID`,
`BrandDetail.SUBINDUSTRY_ID`, `ConsumerSpendDaily.BRAND_ID`,
`SPEND_AMOUNT`, `TRANS_COUNT`, `TRANS_DATE`, `VERSION` — are unchanged by
running the `WIDEN` batch; the only `ALTER` statements in its text target
string columns, and as the batch fails to compile it in fact alters
nothing at all: the whole schema state is unchanged (final conjunct). -/
theorem widen_preserves_nonstring_columns (s : SchemaState) :
    (((execBatch WIDEN s).1.brandDetail.BRAND_ID = s.brandDetail.BRAND_ID
      ∧ (execBatch WIDEN s).1.brandDetail.SUBINDUSTRY_ID = s.brandDetail.SUBINDUSTRY_ID)
    ∧ (execBatch WIDEN s).1.consumerSpendDaily.BRAND_ID = s.consumerSpendDaily.BRAND_ID
    ∧ (execBatch WIDEN s).1.consumerSpendDaily.SPEND_AMOUNT = s.consumerSpendDaily.SPEND_AMOUNT
    ∧ (execBatch WIDEN s).1.consumerSpendDaily.TRANS_COUNT = s.consumerSpendDaily.TRANS_COUNT
    ∧ (execBatch WIDEN s).1.consumerSpendDaily.TRANS_DATE = s.consumerSpendDaily.TRANS_DATE
    ∧ (execBatch WIDEN s).1.consumerSpendDaily.VERSION = s.consumerSpendDaily.VERSION)
    ∧ (execBatch WIDEN s).1 = s :=
  ⟨⟨⟨rfl, rfl⟩, rfl, rfl, rfl, rfl, rfl⟩, rfl⟩

/-- A value held in a dataframe / destination-table cell.  `pd.read_csv`
yields strings or `NaN` (here `null`) for blank fields; numeric columns
are `num` (fixed-point values scaled by `10^4` for `DECIMAL(18,4)`, the
scale being irrelevant to the claims); `pd.to_datetime` yields timestamps
(`date`) or `NaT` (again `null`). -/
inductive Cell
  | null
  | str (s : String)
  | num (n : Int)
  | date (t : Int)
  deriving DecidableEq, Repr

/-- An in-memory dataframe: a list of column headers and a list of rows,
each row holding the cells in header order (`pd.read_csv` output). -/
structure Df where
  cols : List String
  rows : List (List Cell)
  deriving DecidableEq, Repr

/-- Lines 93-94: `df.columns = [c.strip() for c in df.columns]` — relabel
every header with its whitespace-trimmed form; the data rows are not
touched. -/
def normalizeColumns (df : Df) : Df :=
  { df with cols := df.cols.map (fun c => c.trim) }

/-- C9: every column header is trimmed of surrounding whitespace before
any use — the header list after normalization is exactly the map of
`strip` over the raw headers, rows are untouched, and a name `e` matches
a normalized column precisely when some raw header trims to `e` (exact
string equality on the trimmed name). -/
theorem columns_stripped_before_use (df : Df) (e : String) :
    (normalizeColumns df).cols = df.cols.map (fun h => h.trim)
    ∧ (normalizeColumns df).rows = df.rows
    ∧ (e ∈ (normalizeColumns df).cols ↔ ∃ h ∈ df.cols, h.trim = e) := by
  refine ⟨rfl, rfl, ?_⟩
  simp [normalizeColumns]

/-- `pd.to_datetime(series, errors="coerce")` applied to one cell
(lines 96-99), with `p` the underlying date parser: a blank source field
(already `NaN` after `read_csv`) stays null, a string is parsed and
becomes null (`NaT`) when the parser fails, an already-datetime value is
kept, and a numeric value is interpreted as an epoch offset. -/
def toDatetimeCoerce (p : String → Option Int) : Cell → Cell
  | .null => .null
  | .str s =>
    match p s with
    | some t => .date t
    | none => .null
  | .num n => .date n
  | .date t => .date t

/-- Column assignment `df[c] = pd.to_datetime(df[c], ...)` restricted to
one row: walk the headers and the row's cells in parallel and coerce the
cells sitting under a header equal to `c`. -/
def coerceRow (p : String → Option Int) (c : String) :
    List String → List Cell → List Cell
  | [], r => r
  | _ :: _, [] => []
  | c' :: cs, v :: vs =>
    (if c' = c then toDatetimeCoerce p v else v) :: coerceRow p c cs vs

/-- Lines 97-99 for a single column name `c`:
`if col in daily_df.columns: daily_df[col] = pd.to_datetime(daily_df[col],
errors="coerce")`. -/
def coerceColumn (p : String → Option Int) (c : String) (df : Df) : Df :=
  if c ∈ df.cols then
    { df with rows := df.rows.map (fun r => coerceRow p c df.cols r) }
  else df

/-- Lines 97-99: `for col in ("TRANS_DATE", "VERSION"): ...` — coerce the
`TRANS_DATE` column, then the `VERSION` column. -/
def coerceDates (p : String → Option Int) (df : Df) : Df :=
  coerceColumn p "VERSION" (coerceColumn p "TRANS_DATE" df)

theorem coerceColumn_cols (p : String → Option Int) (c : String) (df : Df) :
    (coerceColumn p c df).cols = df.cols := by
  unfold coerceColumn
  split <;> rfl

theorem coerceColumn_rows_length (p : String → Option Int) (c : String) (df : Df) :
    (coerceColumn p c df).rows.length = df.rows.length := by
  unfold coerceColumn
  split <;> simp

theorem coerceRow_length (p : String → Option Int) (c : String) :
    ∀ (cols : List String) (r : List Cell), (coerceRow p c cols r).length = r.length := by
  intro cols
  induction cols with
  | nil => intro r; rfl
  | cons c' cs ih =>
    intro r
    cases r with
    | nil => rfl
    | cons v vs => simp [coerceRow, ih]

theorem coerceRow_get? (p : String → Option Int) (c : String) :
    ∀ (cols : List String) (r : List Cell) (j : Nat),
      (coerceRow p c cols r).get? j
        = (r.get? j).map
            (fun v => if cols.get? j = some c then toDatetimeCoerce p v else v) := by
  intro cols
  induction cols with
  | nil =>
    intro r j
    simp [coerceRow]
  | cons c' cs ih =>
    intro r j
    cases r with
    | nil => simp [coerceRow]
    | cons v vs =>
      cases j with
      | zero => simp [coerceRow]
      | succ k => simpa [coerceRow] using ih vs k

theorem coerceRow_getElem? (p : String → Option Int) (c : String) :
    ∀ (cols : List String) (r : List Cell) (j : Nat),
      (coerceRow p c cols r)[j]?
        = (r[j]?).map
            (fun v => if cols[j]? = some c then toDatetimeCoerce p v else v) := by
  intro cols
  induction cols with
  | nil =>
    intro r j
    simp [coerceRow]
  | cons c' cs ih =>
    intro r j
    cases r with
    | nil => simp [coerceRow]
    | cons v vs =>
      cases j with
      | zero => simp [coerceRow]
      | succ k => simpa [coerceRow] using ih vs k

theorem coerceStepValue (p : String → Option Int) (c0 : String) (cols : List String)
    (r : List Cell) (j : Nat) (v : Cell) (hv : r[j]? = some v) :
    (if c0 ∈ cols then coerceRow p c0 cols r else r)[j]?
      = some (if cols[j]? = some c0 then toDatetimeCoerce p v else v) := by
  by_cases hm : c0 ∈ cols
  · rw [if_pos hm, coerceRow_getElem?, hv]
    rfl
  · rw [if_neg hm, hv]
    have hne : ¬ (cols[j]? = some c0) := fun hsome => hm (List.getElem?_mem hsome)
    rw [if_neg hne]

/-- The effect of lines 97-99 on a single row: coerce the cells under a
`TRANS_DATE` header, then the cells under a `VERSION` header, each pass
applied only when the header is present. -/
def coerceDatesRow (p : String → Option Int) (cols : List String) (r : List Cell) :
    List Cell :=
  if "VERSION" ∈ cols then
    coerceRow p "VERSION" cols
      (if "TRANS_DATE" ∈ cols then coerceRow p "TRANS_DATE" cols r else r)
  else
    (if "TRANS_DATE" ∈ cols then coerceRow p "TRANS_DATE" cols r else r)

theorem coerceDates_rows (p : String → Option Int) (df : Df) :
    (coerceDates p df).rows = df.rows.map (coerceDatesRow p df.cols) := by
  unfold coerceDates coerceDatesRow
  by_cases h1 : "TRANS_DATE" ∈ df.cols <;> by_cases h2 : "VERSION" ∈ df.cols <;>
    simp [coerceColumn, h1, h2, List.map_map, Function.comp_def]

theorem coerceDatesRow_length (p : String → Option Int) (cols : List String)
    (r : List Cell) : (coerceDatesRow p cols r).length = r.length := by
  unfold coerceDatesRow
  by_cases h1 : "TRANS_DATE" ∈ cols <;> by_cases h2 : "VERSION" ∈ cols <;>
    simp [h1, h2, coerceRow_length]

theorem coerceDatesRow_getElem? (p : String → Option Int) (cols : List String)
    (r : List Cell) (j : Nat) (v : Cell) (c : String)
    (hv : r[j]? = some v) (hc : cols[j]? = some c) :
    (coerceDatesRow p cols r)[j]?
      = some (if c = "TRANS_DATE" ∨ c = "VERSION" then toDatetimeCoerce p v else v) := by
  have hstep1 :
      (if "TRANS_DATE" ∈ cols then coerceRow p "TRANS_DATE" cols r else r)[j]?
        = some (if cols[j]? = some "TRANS_DATE" then toDatetimeCoerce p v else v) :=
    coerceStepValue p "TRANS_DATE" cols r j v hv
  have hstep2 :=
    coerceStepValue p "VERSION" cols
      (if "TRANS_DATE" ∈ cols then coerceRow p "TRANS_DATE" cols r else r) j
      (if cols[j]? = some "TRANS_DATE" then toDatetimeCoerce p v else v) hstep1
  show (if "VERSION" ∈ cols then
          coerceRow p "VERSION" cols
            (if "TRANS_DATE" ∈ cols then coerceRow p "TRANS_DATE" cols r else r)
        else
          (if "TRANS_DATE" ∈ cols then coerceRow p "TRANS_DATE" cols r else r))[j]? = _
  rw [hstep2, hc]
  by_cases hTD : c = "TRANS_DATE" <;> by_cases hV : c = "VERSION" <;>
    simp [hTD, hV]

/-- C5: for every daily-dataset row, a `TRANS_DATE` or `VERSION` value
that is empty (null after CSV read) or that the date parser `p` rejects
is stored as null — the coercion never raises, the row count is
preserved, the affected row keeps its length, and every cell under a
column other than `TRANS_DATE`/`VERSION` is persisted unchanged. -/
theorem date_coercion_lenient (p : String → Option Int) (df : Df) :
    (coerceDates p df).cols = df.cols
    ∧ (coerceDates p df).rows.length = df.rows.length
    ∧ ∀ (i : Nat) (r : List Cell), df.rows[i]? = some r →
        ∃ r' : List Cell, (coerceDates p df).rows[i]? = some r'
          ∧ r'.length = r.length
          ∧ ∀ (j : Nat) (v : Cell) (c : String), r[j]? = some v → df.cols[j]? = some c →
              ((c = "TRANS_DATE" ∨ c = "VERSION") →
                (v = Cell.null ∨ ∃ s, v = Cell.str s ∧ p s = none) →
                r'[j]? = some Cell.null)
              ∧ (c ≠ "TRANS_DATE" → c ≠ "VERSION" → r'[j]? = some v) := by
  refine ⟨?_, ?_, ?_⟩
  · show (coerceColumn p "VERSION" (coerceColumn p "TRANS_DATE" df)).cols = df.cols
    rw [coerceColumn_cols, coerceColumn_cols]
  · rw [coerceDates_rows, List.length_map]
  · intro i r hr
    refine ⟨coerceDatesRow p df.cols r, ?_, coerceDatesRow_length p df.cols r, ?_⟩
    · rw [coerceDates_rows, List.getElem?_map, hr]
      rfl
    · intro j v c hv hc
      have hval := coerceDatesRow_getElem? p df.cols r j v c hv hc
      constructor
      · intro hdate hnull
        rw [hval, if_pos hdate]
        rcases hnull with rfl | ⟨s, rfl, hps⟩
        · rfl
        · simp [toDatetimeCoerce, hps]
      · intro hne1 hne2
        rw [hval, if_neg]
        rintro (h | h)
        · exact hne1 h
        · exact hne2 h

/-- The declared column list of `dbo.BrandDetail`, in schema order
(lines 50-58). -/
def brandDetailColumns : List String :=
  ["BRAND_ID", "BRAND_NAME", "BRAND_TYPE", "BRAND_URL_ADDR", "INDUSTRY_NAME",
   "SUBINDUSTRY_ID", "SUBINDUSTRY_NAME"]

/-- The declared column list of `dbo.ConsumerSpendDaily`, in schema order
(lines 37-45). -/
def consumerSpendDailyColumns : List String :=
  ["BRAND_ID", "BRAND_NAME", "SPEND_AMOUNT", "STATE_ABBR", "TRANS_COUNT",
   "TRANS_DATE", "VERSION"]

/-- Position of the first occurrence of column `c` in a header list. -/
def colIndex (cols : List String) (c : String) : Option Nat :=
  match cols with
  | [] => none
  | c' :: rest => if c' = c then some 0 else (colIndex rest c).map (fun i => i + 1)

theorem colIndex_eq_none (cols : List String) (c : String) :
    colIndex cols c = none ↔ c ∉ cols := by
  induction cols with
  | nil => simp [colIndex]
  | cons c' cs ih =>
    by_cases h : c' = c
    · simp [colIndex, h]
    · simp only [colIndex, if_neg h, Option.map_eq_none', ih, List.mem_cons]
      constructor
      · intro hn hor
        rcases hor with hceq | hm
        · exact h hceq.symm
        · exact hn hm
      · intro hn hm
        exact hn (Or.inr hm)

/-- The row a `to_sql` append turns a source row into, seen in the
destination table's column order: the `INSERT INTO dbo.T (<df.columns>)
VALUES (...)` statement names only the dataframe's columns, so every
destination column present in the dataframe receives the row's value and
every destination column absent from it receives its default — `NULL`,
since all columns of both tables are declared nullable. -/
def reorderRow (tableCols dfCols : List String) (r : List Cell) : List Cell :=
  tableCols.map (fun c =>
    match colIndex dfCols c with
    | some i => r.getD i Cell.null
    | none => Cell.null)

/-- `df.to_sql(name, con=engine, schema="dbo", if_exists="append",
index=False, chunksize=5000)` (lines 107-108) against an existing table:
pandas emits `INSERT INTO dbo.T (<df.columns>) VALUES ...`.  If some
dataframe column is not a column of the table, SQL Server rejects the
statement (`Invalid column name`) on the first batch, the exception
propagates and no rows are inserted; otherwise all rows are inserted,
reordered to the destination schema with absent columns null (see
`reorderRow`). -/
def toSqlAppend (tableCols : List String) (df : Df) :
    Except String (List (List Cell)) :=
  match df.cols.find? (fun c => !(tableCols.contains c)) with
  | some c => .error ("Invalid column name " ++ c)
  | none => .ok (df.rows.map (reorderRow tableCols df.cols))

/-- Split a list into chunks of `n` (`chunksize=5000` batching of
`to_sql`): each batch takes the next `n` rows. -/
def chunksOf (n : Nat) : List α → List (List α)
  | [] => []
  | x :: xs => (x :: xs.take (n - 1)) :: chunksOf n (xs.drop (n - 1))
termination_by l => l.length
decreasing_by simp [List.length_drop]; omega

theorem chunksOf_flatten (n : Nat) (l : List α) : (chunksOf n l).flatten = l := by
  have H : ∀ (k : Nat) (l : List α), l.length ≤ k → (chunksOf n l).flatten = l := by
    intro k
    induction k with
    | zero =>
      intro l hl
      have hnil : l = [] := List.length_eq_zero.mp (Nat.le_zero.mp hl)
      subst hnil
      simp [chunksOf]
    | succ k ih =>
      intro l hl
      cases l with
      | nil => simp [chunksOf]
      | cons x xs =>
        simp only [chunksOf, List.flatten_cons]
        have hlen : (xs.drop (n - 1)).length ≤ k := by
          simp only [List.length_cons] at hl
          simp only [List.length_drop]
          omega
        rw [ih _ hlen]
        simp [List.take_append_drop]
  exact H l.length l (Nat.le_refl _)

/-- Appending the batched chunks of `rows` to the current table contents,
one executemany round trip per chunk. -/
def appendChunks (cur rows : List (List Cell)) : List (List Cell) :=
  (chunksOf 5000 rows).foldl (fun acc ch => acc ++ ch) cur

theorem foldl_append_flatten (l : List (List α)) :
    ∀ cur : List α, l.foldl (fun acc ch => acc ++ ch) cur = cur ++ l.flatten := by
  induction l with
  | nil => intro cur; simp
  | cons a t ih => intro cur; simp [ih]

theorem appendChunks_eq (cur rows : List (List Cell)) :
    appendChunks cur rows = cur ++ rows := by
  unfold appendChunks
  rw [foldl_append_flatten, chunksOf_flatten]

/-- The stored rows of the two destination tables. -/
structure DbState where
  brandDetailRows : List (List Cell)
  consumerSpendDailyRows : List (List Cell)
  deriving DecidableEq, Repr

/-- Lines 102-104: `TRUNCATE TABLE dbo.BrandDetail;` and
`TRUNCATE TABLE dbo.ConsumerSpendDaily;` in one transaction. -/
def truncateTables (_st : DbState) : DbState :=
  { brandDetailRows := [], consumerSpendDailyRows := [] }

/-- Lines 101-108: truncate both tables, then bulk-append the brand
dataframe into `dbo.BrandDetail` and the daily dataframe into
`dbo.ConsumerSpendDaily`; a rejected insert stops the script with the
driver's error, leaving the state reached so far. -/
def loadPhase (brand_df daily_df : Df) (st : DbState) :
    DbState × Except String Unit :=
  let st1 := truncateTables st
  match toSqlAppend brandDetailColumns brand_df with
  | .error e => (st1, .error e)
  | .ok brows =>
    let st2 := { st1 with brandDetailRows := appendChunks st1.brandDetailRows brows }
    match toSqlAppend consumerSpendDailyColumns daily_df with
    | .error e => (st2, .error e)
    | .ok drows =>
      ({ st2 with consumerSpendDailyRows := appendChunks st2.consumerSpendDailyRows drows },
        .ok ())

theorem reorderRow_brand_self (r : List Cell) (h : r.length = 7) :
    reorderRow brandDetailColumns brandDetailColumns r = r := by
  rcases r with _ | ⟨a1, _ | ⟨a2, _ | ⟨a3, _ | ⟨a4, _ | ⟨a5, _ | ⟨a6, _ | ⟨a7, _ | ⟨a8, t⟩⟩⟩⟩⟩⟩⟩⟩
  all_goals simp only [List.length_cons, List.length_nil] at h
  all_goals try omega
  rfl

theorem reorderRow_daily_self (r : List Cell) (h : r.length = 7) :
    reorderRow consumerSpendDailyColumns consumerSpendDailyColumns r = r := by
  rcases r with _ | ⟨a1, _ | ⟨a2, _ | ⟨a3, _ | ⟨a4, _ | ⟨a5, _ | ⟨a6, _ | ⟨a7, _ | ⟨a8, t⟩⟩⟩⟩⟩⟩⟩⟩
  all_goals simp only [List.length_cons, List.length_nil] at h
  all_goals try omega
  rfl

theorem toSqlAppend_exact_brand (df : Df) (hc : df.cols = brandDetailColumns)
    (hr : ∀ r ∈ df.rows, r.length = 7) :
    toSqlAppend brandDetailColumns df = .ok df.rows := by
  unfold toSqlAppend
  rw [hc]
  have hfind :
      brandDetailColumns.find? (fun c => !(brandDetailColumns.contains c)) = none := by
    decide
  rw [hfind]
  have hmap : df.rows.map (reorderRow brandDetailColumns brandDetailColumns)
      = df.rows.map (fun r => r) :=
    List.map_congr_left (fun r hm => reorderRow_brand_self r (hr r hm))
  rw [hmap, List.map_id']

theorem toSqlAppend_exact_daily (df : Df) (hc : df.cols = consumerSpendDailyColumns)
    (hr : ∀ r ∈ df.rows, r.length = 7) :
    toSqlAppend consumerSpendDailyColumns df = .ok df.rows := by
  unfold toSqlAppend
  rw [hc]
  have hfind :
      consumerSpendDailyColumns.find?
        (fun c => !(consumerSpendDailyColumns.contains c)) = none := by
    decide
  rw [hfind]
  have hmap : df.rows.map (reorderRow consumerSpendDailyColumns consumerSpendDailyColumns)
      = df.rows.map (fun r => r) :=
    List.map_congr_left (fun r hm => reorderRow_daily_self r (hr r hm))
  rw [hmap, List.map_id']

/-- C1: for any prior table contents, loading a brand file with N rows and
a daily file with M rows (each matching its destination's column set)
leaves `dbo.BrandDetail` holding exactly the N parsed rows and
`dbo.ConsumerSpendDaily` exactly the M parsed rows, column for column:
the load truncates both tables and inserts the freshly parsed datasets. -/
theorem load_full_replace (brand_df daily_df : Df) (st : DbState)
    (hbc : brand_df.cols = brandDetailColumns)
    (hdc : daily_df.cols = consumerSpendDailyColumns)
    (hbr : ∀ r ∈ brand_df.rows, r.length = 7)
    (hdr : ∀ r ∈ daily_df.rows, r.length = 7) :
    loadPhase brand_df daily_df st
      = ({ brandDetailRows := brand_df.rows,
           consumerSpendDailyRows := daily_df.rows }, Except.ok ())
    ∧ (loadPhase brand_df daily_df st).1.brandDetailRows.length
        = brand_df.rows.length
    ∧ (loadPhase brand_df daily_df st).1.consumerSpendDailyRows.length
        = daily_df.rows.length := by
  have hmain : loadPhase brand_df daily_df st
      = ({ brandDetailRows := brand_df.rows,
           consumerSpendDailyRows := daily_df.rows }, Except.ok ()) := by
    unfold loadPhase truncateTables
    rw [toSqlAppend_exact_brand brand_df hbc hbr,
      toSqlAppend_exact_daily daily_df hdc hdr]
    simp [appendChunks_eq]
  exact ⟨hmain, by rw [hmain], by rw [hmain]⟩

/-- A brand CSV parsed with the exact destination column set, plus a daily
CSV likewise, loaded over a database already holding junk rows. -/
def brandDfWitness : Df :=
  { cols := brandDetailColumns
    rows := [[Cell.num 1, Cell.str "Acme", Cell.str "retail",
              Cell.str "https a", Cell.str "Retail", Cell.num 7, Cell.str "Shoes"]] }

def dailyDfWitness : Df :=
  { cols := consumerSpendDailyColumns
    rows := [[Cell.num 1, Cell.str "Acme", Cell.num 1250000, Cell.str "WA",
              Cell.num 20000, Cell.date 1611014400, Cell.null],
             [Cell.num 2, Cell.str "Bolt", Cell.num 90000, Cell.str "OR",
              Cell.num 5000, Cell.null, Cell.null]] }

def preloadedState : DbState :=
  { brandDetailRows := [[Cell.num 99]]
    consumerSpendDailyRows := [[Cell.num 98], [Cell.num 97]] }

theorem load_full_replace_witness :
    loadPhase brandDfWitness dailyDfWitness preloadedState
      = ({ brandDetailRows := brandDfWitness.rows,
           consumerSpendDailyRows := dailyDfWitness.rows }, Except.ok ())
    ∧ brandDfWitness.rows.length = 1 ∧ dailyDfWitness.rows.length = 2 :=
  ⟨(load_full_replace brandDfWitness dailyDfWitness preloadedState rfl rfl
      (by decide) (by decide)).1, rfl, rfl⟩

/-- A brand source file missing the `BRAND_TYPE` column the destination
table declares. -/
def brandDfMissingType : Df :=
  { cols := ["BRAND_ID", "BRAND_NAME", "BRAND_URL_ADDR", "INDUSTRY_NAME",
             "SUBINDUSTRY_ID", "SUBINDUSTRY_NAME"]
    rows := [[Cell.num 1, Cell.str "Acme", Cell.str "https a",
              Cell.str "Retail", Cell.num 7, Cell.str "Shoes"]] }

/-- C4 (counterexample): a brand source file whose column set does NOT
match `dbo.BrandDetail` — `BRAND_TYPE` is missing — is nevertheless
inserted without any error: `to_sql` emits an `INSERT` naming only the
six present columns and SQL Server fills the nullable `BRAND_TYPE` with
null.  Missing source columns are silently defaulted, refuting the claim
that any column-set mismatch is a hard error. -/
theorem missing_column_silently_defaulted :
    brandDfMissingType.cols ≠ brandDetailColumns
    ∧ "BRAND_TYPE" ∈ brandDetailColumns
    ∧ "BRAND_TYPE" ∉ brandDfMissingType.cols
    ∧ toSqlAppend brandDetailColumns brandDfMissingType
        = Except.ok [[Cell.num 1, Cell.str "Acme", Cell.null, Cell.str "https a",
                      Cell.str "Retail", Cell.num 7, Cell.str "Shoes"]] :=
  ⟨by decide, by decide, by decide, rfl⟩

/-- A brand source file carrying a column `EXTRA` that `dbo.BrandDetail`
does not declare. -/
def brandDfExtraCol : Df :=
  { cols := brandDetailColumns ++ ["EXTRA"]
    rows := [[Cell.num 1, Cell.str "Acme", Cell.str "retail", Cell.str "https a",
              Cell.str "Retail", Cell.num 7, Cell.str "Shoes", Cell.str "x"]] }

/-- C4 (amended): only EXTRA source columns are a hard error — the insert
is rejected (`Invalid column name`) and no rows reach the table, which
stays as the truncate left it; a source file merely MISSING destination
columns loads successfully, with each absent destination column stored as
null in every inserted row. -/
theorem column_set_enforcement_amended (tableCols : List String) (df : Df) :
    (∀ c0 : String, c0 ∈ df.cols → c0 ∉ tableCols →
      ∃ c1 : String, c1 ∈ df.cols ∧ c1 ∉ tableCols
        ∧ toSqlAppend tableCols df = .error ("Invalid column name " ++ c1))
    ∧ ((∀ c0 ∈ df.cols, c0 ∈ tableCols) →
        toSqlAppend tableCols df = .ok (df.rows.map (reorderRow tableCols df.cols))
        ∧ ∀ (j : Nat) (c0 : String), tableCols[j]? = some c0 → c0 ∉ df.cols →
            ∀ r : List Cell, (reorderRow tableCols df.cols r)[j]? = some Cell.null)
    ∧ (∀ (daily_df : Df) (st : DbState) (e : String),
        toSqlAppend brandDetailColumns df = .error e →
        (loadPhase df daily_df st).1.brandDetailRows = []
        ∧ (loadPhase df daily_df st).2 = .error e) := by
  refine ⟨?_, ?_, ?_⟩
  · intro c0 hc0 hnc0
    cases hfind : df.cols.find? (fun c => !(tableCols.contains c)) with
    | none =>
      exfalso
      have hnp := List.find?_eq_none.mp hfind c0 hc0
      simp only [Bool.not_eq_true', Bool.not_eq_false] at hnp
      exact hnc0 (List.elem_iff.mp hnp)
    | some c1 =>
      have hp := List.find?_some hfind
      have hm : c1 ∈ df.cols := List.mem_of_find?_eq_some hfind
      refine ⟨c1, hm, ?_, ?_⟩
      · intro hmem
        simp at hp
        exact hp hmem
      · unfold toSqlAppend
        rw [hfind]
  · intro hall
    have hfind : df.cols.find? (fun c => !(tableCols.contains c)) = none := by
      apply List.find?_eq_none.mpr
      intro x hx
      simpa using hall x hx
    refine ⟨by unfold toSqlAppend; rw [hfind], ?_⟩
    intro j c0 hj hnotin r
    unfold reorderRow
    rw [List.getElem?_map, hj]
    have hnone : colIndex df.cols c0 = none := (colIndex_eq_none df.cols c0).mpr hnotin
    simp [hnone]
  · intro daily_df st e herr
    have hload : loadPhase df daily_df st
        = ({ brandDetailRows := [], consumerSpendDailyRows := [] }, .error e) := by
      unfold loadPhase truncateTables
      rw [herr]
    rw [hload]
    exact ⟨rfl, rfl⟩

theorem column_set_enforcement_amended_witness :
    (∃ c1 : String, c1 ∈ brandDfExtraCol.cols ∧ c1 ∉ brandDetailColumns
      ∧ toSqlAppend brandDetailColumns brandDfExtraCol
          = .error ("Invalid column name " ++ c1))
    ∧ toSqlAppend brandDetailColumns brandDfMissingType
        = .ok (brandDfMissingType.rows.map
            (reorderRow brandDetailColumns brandDfMissingType.cols)) :=
  ⟨(column_set_enforcement_amended brandDetailColumns brandDfExtraCol).1
      "EXTRA" (by decide) (by decide),
   ((column_set_enforcement_amended brandDetailColumns brandDfMissingType).2.1
      (by decide)).1⟩

/-- A sample date parser for concrete evaluation: recognizes one ISO
date. -/
def pWitness : String → Option Int :=
  fun s => if s = "2021-01-19" then some 18646 else none

/-- A raw daily CSV row whose `TRANS_DATE` text is not parseable as a
date. -/
def dailyRawDf : Df :=
  { cols := consumerSpendDailyColumns
    rows := [[Cell.num 5, Cell.str "Acme", Cell.num 77, Cell.str "WA",
              Cell.num 3, Cell.str "garbage", Cell.null]] }

theorem date_coercion_lenient_witness :
    ∃ r' : List Cell, (coerceDates pWitness dailyRawDf).rows[0]? = some r'
      ∧ r'[5]? = some Cell.null
      ∧ r'[3]? = some (Cell.str "WA") := by
  obtain ⟨r', hrow, _, hcells⟩ :=
    (date_coercion_lenient pWitness dailyRawDf).2.2 0
      [Cell.num 5, Cell.str "Acme", Cell.num 77, Cell.str "WA",
       Cell.num 3, Cell.str "garbage", Cell.null] rfl
  refine ⟨r', hrow, ?_, ?_⟩
  · exact (hcells 5 (Cell.str "garbage") "TRANS_DATE" rfl rfl).1
      (Or.inl rfl) (Or.inr ⟨"garbage", rfl, by decide⟩)
  · exact (hcells 3 (Cell.str "WA") "STATE_ABBR" rfl rfl).2
      (by decide) (by decide)

/-- The three read-only smoke queries of lines 110-124, in source order:
a row count per table and the top-5 spend ranking. -/
inductive SmokeQuery
  | countBrandDetail
  | countConsumerSpendDaily
  | top5SpendState
  deriving DecidableEq, Repr

/-- A result row set returned by one smoke query. -/
inductive QueryResult
  | count (tableName : String) (n : Nat)
  | ranking (top : List (Cell × Option Int))
  deriving DecidableEq, Repr

/-- `SPEND_AMOUNT` of a daily row (position 2 of the schema order). -/
def spendAmountOf (r : List Cell) : Cell := r.getD 2 Cell.null

/-- `STATE_ABBR` of a daily row (position 3 of the schema order). -/
def stateAbbrOf (r : List Cell) : Cell := r.getD 3 Cell.null

/-- The distinct `GROUP BY` keys in first-occurrence order. -/
def distinctKeys (l : List Cell) : List Cell :=
  l.foldl (fun acc k => if k ∈ acc then acc else acc ++ [k]) []

/-- SQL `SUM(SPEND_AMOUNT)` over the rows of one group: `NULL` and
non-numeric cells are ignored, and a group with no numeric value sums to
`NULL`. -/
def sumSpend (rows : List (List Cell)) (k : Cell) : Option Int :=
  rows.foldl
    (fun acc r =>
      if stateAbbrOf r = k then
        match spendAmountOf r with
        | .num n => some (acc.getD 0 + n)
        | _ => acc
      else acc)
    none

/-- `ORDER BY TotalSpend DESC`: `a` may precede `b` when its total is at
least `b`'s, a `NULL` total sorting last. -/
def spendDescB (a b : Cell × Option Int) : Bool :=
  match a.2, b.2 with
  | _, none => true
  | none, some _ => false
  | some m, some n => decide (n ≤ m)

instance : IsTotal (Cell × Option Int) (fun a b => spendDescB a b = true) :=
  ⟨by
    intro a b
    rcases a with ⟨x, _ | m⟩ <;> rcases b with ⟨y, _ | n⟩ <;> simp [spendDescB] <;> omega⟩

instance : IsTrans (Cell × Option Int) (fun a b => spendDescB a b = true) :=
  ⟨by
    intro a b c hab hbc
    rcases a with ⟨x, _ | m⟩ <;> rcases b with ⟨y, _ | n⟩ <;> rcases c with ⟨z, _ | k⟩ <;>
      simp_all [spendDescB] <;> omega⟩

/-- The `TOP 5 ... GROUP BY STATE_ABBR ... SUM(SPEND_AMOUNT) ... ORDER BY
TotalSpend DESC` query of lines 116-121 against the stored daily rows. -/
def top5SpendByState (rows : List (List Cell)) : List (Cell × Option Int) :=
  (List.insertionSort (fun a b => spendDescB a b = true)
    ((distinctKeys (rows.map stateAbbrOf)).map (fun k => (k, sumSpend rows k)))).take 5

/-- Evaluate one smoke query on the database state; queries are `SELECT`s
and return a result without touching the stored rows. -/
def evalSmokeQuery (st : DbState) : SmokeQuery → QueryResult
  | .countBrandDetail => .count "BrandDetail" st.brandDetailRows.length
  | .countConsumerSpendDaily =>
    .count "ConsumerSpendDaily" st.consumerSpendDailyRows.length
  | .top5SpendState => .ranking (top5SpendByState st.consumerSpendDailyRows)

/-- The smoke-test query list of lines 113-122, in source order. -/
def smokeQueries : List SmokeQuery :=
  [.countBrandDetail, .countConsumerSpendDaily, .top5SpendState]

/-- Lines 110-124: run the smoke queries in order, collecting one result
per query; each step evaluates a `SELECT` against the current state and
leaves the state to the next step. -/
def runSmokeTests (st : DbState) : DbState × List QueryResult :=
  smokeQueries.foldl
    (fun acc q => (acc.1, acc.2 ++ [evalSmokeQuery acc.1 q]))
    (st, [])

/-- C8: the verification phase runs exactly the two row counts and the
top-5 `STATE_ABBR`/`SUM(SPEND_AMOUNT)` ranking, leaves the stored rows of
both tables unchanged, and the ranking it reports is sorted descending by
total spend with at most five entries. -/
theorem smoke_tests_read_only (st : DbState) :
    (runSmokeTests st).1 = st
    ∧ (runSmokeTests st).2
        = [QueryResult.count "BrandDetail" st.brandDetailRows.length,
           QueryResult.count "ConsumerSpendDaily" st.consumerSpendDailyRows.length,
           QueryResult.ranking (top5SpendByState st.consumerSpendDailyRows)]
    ∧ List.Sorted (fun a b => spendDescB a b = true)
        (top5SpendByState st.consumerSpendDailyRows)
    ∧ (top5SpendByState st.consumerSpendDailyRows).length ≤ 5 := by
  refine ⟨rfl, rfl, ?_, ?_⟩
  · exact List.Pairwise.sublist (List.take_sublist 5 _)
      (List.sorted_insertionSort (fun a b => spendDescB a b = true) _)
  · exact List.length_take_le 5 _

/-- The externally visible database state across a run: whether each table
exists (and with which declared types) plus the stored rows. -/
structure PipelineState where
  brandDetailSchema : Option BrandDetailSchema
  consumerSpendDailySchema : Option ConsumerSpendDailySchema
  db : DbState
  deriving DecidableEq, Repr

/-- The whole script, top to bottom: resolve configuration (lines 9-12) —
dying before anything else if a variable is absent — build the engine
(lines 20-31), run the `DDL` batch (lines 34-62), attempt the `WIDEN`
batch (lines 66-85) — which, not compiling, raises and aborts the run
with the schemas as the `DDL` left them and the rows untouched — and,
were the batch ever to execute, read and normalize the CSVs and coerce
dates (lines 89-99), truncate-and-load (lines 101-108), and report the
smoke-test results (lines 110-124). -/
def runPipeline (env : String → Option String) (p : String → Option Int)
    (brandFile dailyFile : Df) (ps : PipelineState) :
    PipelineState × Except String (List QueryResult) :=
  match loadConfig env with
  | .error k => (ps, .error k)
  | .ok cfg =>
    let _eng := engine cfg
    let sch0 := runDDL ps.brandDetailSchema ps.consumerSpendDailySchema
    match execBatch WIDEN sch0 with
    | (sch1, .error e) =>
      ({ brandDetailSchema := some sch1.brandDetail
         consumerSpendDailySchema := some sch1.consumerSpendDaily
         db := ps.db }, .error e)
    | (sch1, .ok _) =>
      let brand_df := normalizeColumns brandFile
      let daily_df := coerceDates p (normalizeColumns dailyFile)
      match loadPhase brand_df daily_df ps.db with
      | (st1, .error e) =>
        ({ brandDetailSchema := some sch1.brandDetail
           consumerSpendDailySchema := some sch1.consumerSpendDaily
           db := st1 }, .error e)
      | (st1, .ok _) =>
        ({ brandDetailSchema := some sch1.brandDetail
           consumerSpendDailySchema := some sch1.consumerSpendDaily
           db := st1 }, .ok (runSmokeTests st1).2)

/-- C6: configuration reads exactly the four named environment values —
`loadConfig` depends on nothing else in the environment; if one is absent
the run fails immediately with an error naming an absent variable, before
any connection, DDL or load work (the pipeline state is returned
untouched); if all four are present they are returned verbatim as
strings, with no validation. -/
theorem config_resolution (env : String → Option String) (p : String → Option Int)
    (brandFile dailyFile : Df) (ps : PipelineState) :
    (∀ env' : String → Option String,
      (∀ k ∈ requiredEnvVars, env k = env' k) → loadConfig env = loadConfig env')
    ∧ ((∃ k ∈ requiredEnvVars, env k = none) →
        ∃ k ∈ requiredEnvVars, env k = none
          ∧ loadConfig env = .error k
          ∧ runPipeline env p brandFile dailyFile ps = (ps, .error k))
    ∧ ((∀ k ∈ requiredEnvVars, ∃ v : String, env k = some v) →
        loadConfig env
          = .ok { SERVER := (env "AZ_SQLSERVER").getD ""
                  DATABASE := (env "AZ_DBNAME").getD ""
                  UID := (env "AZ_SQLUSER").getD ""
                  PWD := (env "AZ_SQLPASSWORD").getD "" }) := by
  refine ⟨?_, ?_, ?_⟩
  · intro env' hagree
    have e1 := hagree "AZ_SQLSERVER" (by decide)
    have e2 := hagree "AZ_DBNAME" (by decide)
    have e3 := hagree "AZ_SQLUSER" (by decide)
    have e4 := hagree "AZ_SQLPASSWORD" (by decide)
    unfold loadConfig
    rw [e1, e2, e3, e4]
  · rintro ⟨k, hkmem, hknone⟩
    have hstep : ∃ k0, k0 ∈ requiredEnvVars ∧ env k0 = none
        ∧ loadConfig env = .error k0 := by
      cases h1 : env "AZ_SQLSERVER" with
      | none => exact ⟨"AZ_SQLSERVER", by decide, h1, by unfold loadConfig; rw [h1]⟩
      | some v1 =>
        cases h2 : env "AZ_DBNAME" with
        | none => exact ⟨"AZ_DBNAME", by decide, h2, by unfold loadConfig; rw [h1, h2]⟩
        | some v2 =>
          cases h3 : env "AZ_SQLUSER" with
          | none =>
            exact ⟨"AZ_SQLUSER", by decide, h3, by unfold loadConfig; rw [h1, h2, h3]⟩
          | some v3 =>
            cases h4 : env "AZ_SQLPASSWORD" with
            | none =>
              exact ⟨"AZ_SQLPASSWORD", by decide, h4, by
                unfold loadConfig; rw [h1, h2, h3, h4]⟩
            | some v4 =>
              exfalso
              simp only [requiredEnvVars, List.mem_cons, List.not_mem_nil, or_false]
                at hkmem
              rcases hkmem with rfl | rfl | rfl | rfl <;>
                simp_all
    obtain ⟨k0, hk0m, hk0n, hconf⟩ := hstep
    exact ⟨k0, hk0m, hk0n, hconf, by unfold runPipeline; rw [hconf]⟩
  · intro hall
    obtain ⟨v1, h1⟩ := hall "AZ_SQLSERVER" (by decide)
    obtain ⟨v2, h2⟩ := hall "AZ_DBNAME" (by decide)
    obtain ⟨v3, h3⟩ := hall "AZ_SQLUSER" (by decide)
    obtain ⟨v4, h4⟩ := hall "AZ_SQLPASSWORD" (by decide)
    unfold loadConfig
    rw [h1, h2, h3, h4]
    simp

/-- An environment missing `AZ_DBNAME` and the other two required names
past the first. -/
def envMissingDb : String → Option String :=
  fun k => if k = "AZ_SQLSERVER" then some "srv.example" else none

/-- An environment holding all four required values. -/
def envFull : String → Option String :=
  fun k =>
    if k = "AZ_SQLSERVER" then some "srv.example"
    else if k = "AZ_DBNAME" then some "HW8PipelineDB"
    else if k = "AZ_SQLUSER" then some "etl"
    else if k = "AZ_SQLPASSWORD" then some "secret"
    else none

theorem config_resolution_witness :
    (∃ k ∈ requiredEnvVars, envMissingDb k = none
      ∧ loadConfig envMissingDb = Except.error k)
    ∧ loadConfig envFull
        = Except.ok { SERVER := "srv.example", DATABASE := "HW8PipelineDB"
                      UID := "etl", PWD := "secret" } := by
  constructor
  · obtain ⟨k, hm, hn, hc, _⟩ :=
      (config_resolution envMissingDb (fun _ => none)
        { cols := [], rows := [] } { cols := [], rows := [] }
        { brandDetailSchema := none, consumerSpendDailySchema := none
          db := { brandDetailRows := [], consumerSpendDailyRows := [] } }).2.1
        ⟨"AZ_DBNAME", by decide, by decide⟩
    exact ⟨k, hm, hn, hc⟩
  · have h :=
      (config_resolution envFull (fun _ => none)
        { cols := [], rows := [] } { cols := [], rows := [] }
        { brandDetailSchema := none, consumerSpendDailySchema := none
          db := { brandDetailRows := [], consumerSpendDailyRows := [] } }).2.2
        (by
          intro k hk
          simp only [requiredEnvVars, List.mem_cons, List.not_mem_nil, or_false] at hk
          rcases hk with rfl | rfl | rfl | rfl
          · exact ⟨"srv.example", rfl⟩
          · exact ⟨"HW8PipelineDB", rfl⟩
          · exact ⟨"etl", rfl⟩
          · exact ⟨"secret", rfl⟩)
    exact h
